import Mathlib

set_option maxRecDepth 8192

/-!
Shallow embedding of the SEO meta-tag checker (`main.py`): URL normalization,
metadata extraction from a parsed HTML document, rule-based feedback
generation, and the `/analyze` request handler.  The HTML parser and the HTTP
client are external collaborators; the parsed document is modelled as a
`Soup` value and the fetch as an explicit function argument whose invocations
are recorded in a trace.
-/

namespace SEO

/-- ASCII whitespace recognised by Python's `str.strip()` (model; the
unicode space classes are not modelled). -/
def isPySpace (c : Char) : Bool :=
  c == ' ' || c == '\t' || c == '\n' || c == '\r' || c == '\x0b' || c == '\x0c'

/-- Model of Python `str.strip()`: drop whitespace from the front, then from
the back. -/
def pyStrip (s : String) : String :=
  ⟨List.rdropWhile isPySpace (List.dropWhile isPySpace s.data)⟩

/-- Model of Python `str.startswith` on the character lists. -/
def beginsWithL : List Char → List Char → Bool
  | _, [] => true
  | [], _ :: _ => false
  | a :: s, b :: p => a == b && beginsWithL s p

/-- Model of Python `str.startswith`. -/
def beginsWith (s pre : String) : Bool :=
  beginsWithL s.data pre.data

/-- Model of Python `str.lower()` (ASCII case mapping). -/
def pyLower (s : String) : String :=
  ⟨s.data.map Char.toLower⟩

/-- Substring occurrence on character lists, model of Python's `in`. -/
def containsSubL : List Char → List Char → Bool
  | [], pat => beginsWithL [] pat
  | a :: t, pat => beginsWithL (a :: t) pat || containsSubL t pat

/-- Model of Python's `pat in s` for strings. -/
def pyContains (s pat : String) : Bool :=
  containsSubL s.data pat.data

/-- `normalize_url` from `main.py`: strip, then prepend `https://` unless the
string already starts with `http://` or `https://`. -/
def normalize_url (url : String) : String :=
  let u := pyStrip url
  if !(beginsWith u "http://") && !(beginsWith u "https://") then
    "https://" ++ u
  else
    u

/-- A `<meta>` element as seen by the extractor: its `name`, `property` and
`content` attributes (absent attribute = `none`). -/
structure MetaTag where
  name : Option String := none
  property : Option String := none
  content : Option String := none
deriving DecidableEq

/-- A `<link>` element: its `rel` and `href` attributes. -/
structure LinkTag where
  rel : Option String := none
  href : Option String := none
deriving DecidableEq

/-- The parsed document (the BeautifulSoup value), restricted to what the
extractor reads: the meta elements in document order, the link elements in
document order, and `soup.title` (`none` = no title element; `some none` = a
title element whose `.string` is `None`). -/
structure Soup where
  metas : List MetaTag := []
  links : List LinkTag := []
  title : Option (Option String) := none
deriving DecidableEq

/-- `tag.get("content", "").strip() if tag and tag.get("content") else ""`
for a meta tag that was found. -/
def metaContent (tag : MetaTag) : String :=
  match tag.content with
  | some c => if c ≠ "" then pyStrip c else ""
  | none => ""

/-- `get_meta_by_name` from `extract_meta_tags`. -/
def get_meta_by_name (soup : Soup) (n : String) : String :=
  match soup.metas.find? (fun t => t.name == some n) with
  | some tag => metaContent tag
  | none => ""

/-- `get_meta_by_property` from `extract_meta_tags`: look up by the
`property` attribute, and only if no such element exists fall back to the
`name` attribute. -/
def get_meta_by_property (soup : Soup) (prop : String) : String :=
  let tag := soup.metas.find? (fun t => t.property == some prop)
  let tag :=
    match tag with
    | none => soup.metas.find? (fun t => t.name == some prop)
    | some t => some t
  match tag with
  | some t => metaContent t
  | none => ""

/-- `get_link_rel` from `extract_meta_tags`. -/
def get_link_rel (soup : Soup) (r : String) : String :=
  match soup.links.find? (fun t => t.rel == some r) with
  | some tag =>
    match tag.href with
    | some h => if h ≠ "" then pyStrip h else ""
    | none => ""
  | none => ""

/-- `soup.title.string.strip() if soup.title and soup.title.string else ""`. -/
def soupTitle (soup : Soup) : String :=
  match soup.title with
  | some (some s) => if s ≠ "" then pyStrip s else ""
  | _ => ""

/-- Python `dict.get(k, "")` on the metadata record modelled as an
association list. -/
def dictGet (m : List (String × String)) (k : String) : String :=
  match m.find? (fun p => p.1 == k) with
  | some p => p.2
  | none => ""

/-- Python `d[k] = v` on the association-list model of the dict (the key is
present; assignment replaces its value). -/
def dictSet (m : List (String × String)) (k v : String) : List (String × String) :=
  m.map (fun p => if p.1 == k then (p.1, v) else p)

/-- `extract_meta_tags` from `main.py`: the 13-key metadata dict, with the
`og:url` fallback to the requested URL. -/
def extract_meta_tags (soup : Soup) (url : String) : List (String × String) :=
  let meta := [
    ("title", soupTitle soup),
    ("description", get_meta_by_name soup "description"),
    ("robots", get_meta_by_name soup "robots"),
    ("canonical", get_link_rel soup "canonical"),
    ("og:title", get_meta_by_property soup "og:title"),
    ("og:description", get_meta_by_property soup "og:description"),
    ("og:image", get_meta_by_property soup "og:image"),
    ("og:url", get_meta_by_property soup "og:url"),
    ("og:type", get_meta_by_property soup "og:type"),
    ("twitter:card", get_meta_by_property soup "twitter:card"),
    ("twitter:title", get_meta_by_property soup "twitter:title"),
    ("twitter:description", get_meta_by_property soup "twitter:description"),
    ("twitter:image", get_meta_by_property soup "twitter:image")]
  if dictGet meta "og:url" = "" then dictSet meta "og:url" url else meta

/-- One feedback entry `{"level": ..., "message": ...}`. -/
structure FeedbackItem where
  level : String
  message : String
deriving DecidableEq

/-- The title block of `generate_feedback`. -/
def titleFeedback (meta : List (String × String)) : List FeedbackItem :=
  let title := dictGet meta "title"
  if title = "" then
    [⟨"error", "Missing <title> tag. Every page should have a unique, descriptive title."⟩]
  else if title.length < 30 then
    [⟨"warning", "Title is quite short (" ++ toString title.length ++ " chars). Aim for 30–60 characters."⟩]
  else if title.length > 65 then
    [⟨"warning", "Title may be too long (" ++ toString title.length ++ " chars). It might get truncated in search results."⟩]
  else
    [⟨"ok", "Title length looks good."⟩]

/-- The description block of `generate_feedback`. -/
def descriptionFeedback (meta : List (String × String)) : List FeedbackItem :=
  let description := dictGet meta "description"
  if description = "" then
    [⟨"error", "Missing meta description. Add a concise, compelling description (50–160 characters)."⟩]
  else if description.length < 50 then
    [⟨"warning", "Description is short (" ++ toString description.length ++ " chars). Aim for 50–160 characters."⟩]
  else if description.length > 170 then
    [⟨"warning", "Description is long (" ++ toString description.length ++ " chars). It might be truncated in search."⟩]
  else
    [⟨"ok", "Meta description length looks good."⟩]

/-- The robots block of `generate_feedback`. -/
def robotsFeedback (meta : List (String × String)) : List FeedbackItem :=
  let robots := pyLower (dictGet meta "robots")
  if robots ≠ "" then
    (if pyContains robots "noindex" then
      [⟨"warning", "robots tag contains \x27noindex\x27. This page will not appear in search results."⟩]
    else []) ++
    (if pyContains robots "nofollow" then
      [⟨"warning", "robots tag contains \x27nofollow\x27. Search engines won\x27t follow links on this page."⟩]
    else [])
  else
    [⟨"ok", "No robots meta tag found. Default is index, follow (usually fine)."⟩]

/-- The canonical block of `generate_feedback`. -/
def canonicalFeedback (meta : List (String × String)) : List FeedbackItem :=
  if dictGet meta "canonical" = "" then
    [⟨"warning", "Missing canonical link tag. Consider adding one to avoid duplicate content issues."⟩]
  else
    [⟨"ok", "Canonical URL is set."⟩]

/-- The Open Graph title/description block of `generate_feedback`. -/
def ogFeedback (meta : List (String × String)) : List FeedbackItem :=
  if dictGet meta "og:title" = "" ∨ dictGet meta "og:description" = "" then
    [⟨"warning", "Open Graph title/description missing or incomplete. Social shares may look generic."⟩]
  else
    [⟨"ok", "Open Graph title and description are present."⟩]

/-- The Open Graph image block of `generate_feedback`. -/
def ogImageFeedback (meta : List (String × String)) : List FeedbackItem :=
  if dictGet meta "og:image" = "" then
    [⟨"warning", "Open Graph image missing. Social shares may not show a nice preview image."⟩]
  else
    [⟨"ok", "Open Graph image is set."⟩]

/-- The Twitter card block of `generate_feedback`. -/
def twitterFeedback (meta : List (String × String)) : List FeedbackItem :=
  if dictGet meta "twitter:card" = "" then
    [⟨"warning", "twitter:card missing. Set it to \x27summary\x27 or \x27summary_large_image\x27 for better Twitter previews."⟩]
  else
    [⟨"ok", "Twitter card type is \x27" ++ dictGet meta "twitter:card" ++ "\x27."⟩]

/-- `generate_feedback` from `main.py`: the sequential appends of the seven
check blocks, in source order. -/
def generate_feedback (meta : List (String × String)) : List FeedbackItem :=
  titleFeedback meta ++ descriptionFeedback meta ++ robotsFeedback meta ++
    canonicalFeedback meta ++ ogFeedback meta ++ ogImageFeedback meta ++
    twitterFeedback meta

/-- The response of the `/analyze` handler: either a JSON error with an HTTP
status, or the success payload. -/
inductive AnalyzeResponse where
  | failure (error : String) (status : Nat)
  | success (url : String) (display_url : String)
      (meta : List (String × String)) (feedback : List FeedbackItem)
deriving DecidableEq

/-- The `/analyze` handler.  `fetch` is the outbound HTTP GET (external),
`parseHtml` the HTML parser (external), `displayUrl` the
scheme-host-path projection of `urlparse` (external); `urlField` is the
`url` field of the JSON body.  The second component of the result is the
trace of URLs passed to `fetch`. -/
def analyze (fetch : String → Except String String) (parseHtml : String → Soup)
    (displayUrl : String → String) (urlField : Option String) :
    AnalyzeResponse × List String :=
  let url := pyStrip (urlField.getD "")
  if url = "" then
    (.failure "No URL provided." 400, [])
  else
    let url := normalize_url url
    match fetch url with
    | .error e => (.failure ("Error fetching URL: " ++ e) 400, [url])
    | .ok html =>
      let meta := extract_meta_tags (parseHtml html) url
      (.success url (displayUrl url) meta (generate_feedback meta), [url])

/-- Severity of the title check as the specification words it: empty title is
an error, shorter than 30 or longer than 65 characters a warning, otherwise
ok. -/
def specTitleLevel (t : String) : String :=
  if t = "" then "error"
  else if t.length < 30 then "warning"
  else if t.length > 65 then "warning"
  else "ok"

/-- Severity of the description check as the specification words it: empty is
an error, shorter than 50 or longer than 170 characters a warning, otherwise
ok. -/
def specDescriptionLevel (d : String) : String :=
  if d = "" then "error"
  else if d.length < 50 then "warning"
  else if d.length > 170 then "warning"
  else "ok"

/-! ### Helper lemmas -/

theorem pyLower_eq_empty_iff (s : String) : pyLower s = "" ↔ s = "" := by
  obtain ⟨d⟩ := s
  constructor
  · intro h
    have h2 : List.map Char.toLower d = [] := congrArg String.data h
    have h3 : d = [] := List.map_eq_nil_iff.mp h2
    rw [h3]
  · intro h
    rw [h]
    rfl

theorem titleFeedback_length_one (meta : List (String × String)) :
    (titleFeedback meta).length = 1 := by
  simp only [titleFeedback]
  split_ifs <;> rfl

theorem descriptionFeedback_length_one (meta : List (String × String)) :
    (descriptionFeedback meta).length = 1 := by
  simp only [descriptionFeedback]
  split_ifs <;> rfl

theorem canonicalFeedback_length_one (meta : List (String × String)) :
    (canonicalFeedback meta).length = 1 := by
  simp only [canonicalFeedback]
  split_ifs <;> rfl

theorem ogFeedback_length_one (meta : List (String × String)) :
    (ogFeedback meta).length = 1 := by
  simp only [ogFeedback]
  split_ifs <;> rfl

theorem ogImageFeedback_length_one (meta : List (String × String)) :
    (ogImageFeedback meta).length = 1 := by
  simp only [ogImageFeedback]
  split_ifs <;> rfl

theorem twitterFeedback_length_one (meta : List (String × String)) :
    (twitterFeedback meta).length = 1 := by
  simp only [twitterFeedback]
  split_ifs <;> rfl

theorem robotsFeedback_length_le_two (meta : List (String × String)) :
    (robotsFeedback meta).length ≤ 2 := by
  simp only [robotsFeedback]
  split_ifs <;> simp

theorem stripData_dropWhile_fix (s : String) :
    List.dropWhile isPySpace (List.rdropWhile isPySpace (List.dropWhile isPySpace s.data)) =
      List.rdropWhile isPySpace (List.dropWhile isPySpace s.data) := by
  rw [List.dropWhile_eq_self_iff]
  intro hl
  have hpre : List.rdropWhile isPySpace (List.dropWhile isPySpace s.data) <+:
      List.dropWhile isPySpace s.data := List.rdropWhile_prefix _ _
  have hnot := List.dropWhile_get_zero_not (p := isPySpace) s.data
    (lt_of_lt_of_le hl hpre.length_le)
  rw [List.IsPrefix.get_eq hpre hl]
  exact hnot

theorem pyStrip_idem (s : String) : pyStrip (pyStrip s) = pyStrip s := by
  show (⟨List.rdropWhile isPySpace (List.dropWhile isPySpace
      (List.rdropWhile isPySpace (List.dropWhile isPySpace s.data)))⟩ : String) = pyStrip s
  rw [stripData_dropWhile_fix, List.rdropWhile_idempotent]
  rfl

theorem dropWhile_https_append (m : List Char) :
    List.dropWhile isPySpace ("https://".data ++ m) = "https://".data ++ m := by
  show List.dropWhile isPySpace ('h' :: ("ttps://".data ++ m)) = 'h' :: ("ttps://".data ++ m)
  rw [List.dropWhile_cons, if_neg]
  simp [show isPySpace 'h' = false from rfl]

theorem rdropWhile_append_keep (l m : List Char) (hl : l ≠ [])
    (hlast : ¬ isPySpace (l.getLast hl) = true)
    (hm : ∀ h : m ≠ [], ¬ isPySpace (m.getLast h) = true) :
    List.rdropWhile isPySpace (l ++ m) = l ++ m := by
  cases m with
  | nil =>
    rw [List.append_nil]
    exact List.rdropWhile_eq_self_iff.mpr (fun _ => hlast)
  | cons a t =>
    apply List.rdropWhile_eq_self_iff.mpr
    intro h
    have h2 : a :: t ≠ [] := List.cons_ne_nil a t
    rw [List.getLast_append' l (a :: t) h2]
    exact hm h2

theorem pyStrip_https (s : String) :
    pyStrip ("https://" ++ pyStrip s) = "https://" ++ pyStrip s := by
  show (⟨List.rdropWhile isPySpace (List.dropWhile isPySpace
      ("https://".data ++ List.rdropWhile isPySpace (List.dropWhile isPySpace s.data)))⟩ :
      String) = "https://" ++ pyStrip s
  rw [dropWhile_https_append]
  rw [rdropWhile_append_keep "https://".data _ (by decide) (by decide)
    (fun h => List.rdropWhile_last_not isPySpace (List.dropWhile isPySpace s.data) h)]
  rfl

theorem beginsWithL_nil (l : List Char) : beginsWithL l [] = true := by
  cases l <;> rfl

theorem beginsWithL_self_append (p r : List Char) : beginsWithL (p ++ r) p = true := by
  induction p with
  | nil => exact beginsWithL_nil r
  | cons a p ih =>
    show (a == a && beginsWithL (p ++ r) p) = true
    simp [ih]

theorem beginsWith_https_append (t : String) :
    beginsWith ("https://" ++ t) "https://" = true := by
  obtain ⟨d⟩ := t
  show beginsWithL ("https://".data ++ d) "https://".data = true
  exact beginsWithL_self_append _ _

/-! ### Claim theorems -/

/-- Claim C1: for every metadata record the title check emits exactly one
feedback item, with severity `error` on an empty title, `warning` below 30
or above 65 characters, and `ok` otherwise; titles of exactly 30 and 65
characters get `ok`, of 29 and 66 characters `warning`. -/
theorem title_check_single_item :
    (∀ meta : List (String × String),
      (titleFeedback meta).map FeedbackItem.level = [specTitleLevel (dictGet meta "title")]) ∧
    (titleFeedback [("title", ⟨List.replicate 30 'a'⟩)]).map FeedbackItem.level = ["ok"] ∧
    (titleFeedback [("title", ⟨List.replicate 29 'a'⟩)]).map FeedbackItem.level = ["warning"] ∧
    (titleFeedback [("title", ⟨List.replicate 65 'a'⟩)]).map FeedbackItem.level = ["ok"] ∧
    (titleFeedback [("title", ⟨List.replicate 66 'a'⟩)]).map FeedbackItem.level = ["warning"] := by
  refine ⟨fun meta => ?_, by decide, by decide, by decide, by decide⟩
  simp only [titleFeedback, specTitleLevel]
  split_ifs <;> rfl

/-- Claim C2: for every metadata record the description check emits exactly
one feedback item, with severity `error` on an empty description, `warning`
below 50 or above 170 characters (the literal threshold 170, not the 160 of
the advisory text), and `ok` otherwise; 165- and 170-character descriptions
get `ok`, a 171-character one gets `warning`. -/
theorem description_check_single_item :
    (∀ meta : List (String × String),
      (descriptionFeedback meta).map FeedbackItem.level =
        [specDescriptionLevel (dictGet meta "description")]) ∧
    (descriptionFeedback [("description", ⟨List.replicate 165 'a'⟩)]).map FeedbackItem.level
      = ["ok"] ∧
    (descriptionFeedback [("description", ⟨List.replicate 170 'a'⟩)]).map FeedbackItem.level
      = ["ok"] ∧
    (descriptionFeedback [("description", ⟨List.replicate 171 'a'⟩)]).map FeedbackItem.level
      = ["warning"] := by
  refine ⟨fun meta => ?_, by decide, by decide, by decide⟩
  simp only [descriptionFeedback, specDescriptionLevel]
  split_ifs <;> rfl

/-- Claim C3: the robots check emits a single `ok` item when the robots
value is empty; otherwise a `warning` when the lower-cased value contains
`noindex` and, independently, a `warning` when it contains `nofollow`, the
noindex warning first; in particular `"noindex, nofollow"` yields exactly
those two warnings in that order. -/
theorem robots_check_items :
    (∀ meta : List (String × String),
      (robotsFeedback meta).map FeedbackItem.level =
        if dictGet meta "robots" = "" then ["ok"]
        else
          (if pyContains (pyLower (dictGet meta "robots")) "noindex" then ["warning"] else []) ++
          (if pyContains (pyLower (dictGet meta "robots")) "nofollow" then ["warning"] else [])) ∧
    robotsFeedback [("robots", "noindex, nofollow")] =
      [⟨"warning", "robots tag contains \x27noindex\x27. This page will not appear in search results."⟩,
       ⟨"warning", "robots tag contains \x27nofollow\x27. Search engines won\x27t follow links on this page."⟩] := by
  refine ⟨fun meta => ?_, by decide⟩
  by_cases h : dictGet meta "robots" = ""
  · simp only [robotsFeedback]
    rw [h]
    decide
  · rw [if_neg h]
    simp only [robotsFeedback]
    have h2 : pyLower (dictGet meta "robots") ≠ "" :=
      fun he => h ((pyLower_eq_empty_iff _).mp he)
    rw [if_pos h2]
    split_ifs <;> rfl

/-- Claim C4: the Open Graph / Twitter lookup returns the content of the
first meta element whose `property` attribute equals the field name, and
falls back to the first meta element whose `name` attribute equals it only
when no meta element with that `property` value exists; with only
`<meta property="og:title" content="A">` the record's og:title is `"A"`,
with only `<meta name="og:title" content="B">` it is `"B"`. -/
theorem og_property_then_name_fallback :
    (∀ (soup : Soup) (prop : String) (tag : MetaTag),
      soup.metas.find? (fun t => t.property == some prop) = some tag →
      get_meta_by_property soup prop = metaContent tag) ∧
    (∀ (soup : Soup) (prop : String),
      soup.metas.find? (fun t => t.property == some prop) = none →
      get_meta_by_property soup prop = get_meta_by_name soup prop) ∧
    dictGet (extract_meta_tags ⟨[⟨none, some "og:title", some "A"⟩], [], none⟩ "u") "og:title"
      = "A" ∧
    dictGet (extract_meta_tags ⟨[⟨some "og:title", none, some "B"⟩], [], none⟩ "u") "og:title"
      = "B" := by
  refine ⟨fun soup prop tag h => ?_, fun soup prop h => ?_, by decide, by decide⟩
  · simp only [get_meta_by_property]
    rw [h]
  · simp only [get_meta_by_property, get_meta_by_name]
    rw [h]
    rcases hN : soup.metas.find? (fun t => t.name == some prop) with _ | tag <;> rw [hN]

/-- Claim C4 witness: on a document whose only meta element carries both a
`name` and a `property` attribute for the looked-up key, the lookup takes
the property match. -/
theorem og_property_then_name_fallback_witness :
    get_meta_by_property ⟨[⟨some "og:page", some "og:page", some "C"⟩], [], none⟩ "og:page"
      = "C" :=
  (og_property_then_name_fallback.1 ⟨[⟨some "og:page", some "og:page", some "C"⟩], [], none⟩
    "og:page" ⟨some "og:page", some "og:page", some "C"⟩ rfl).trans (by decide)

/-- Claim C5: the extracted record's og:url is the property-then-name lookup
result when that is non-empty, and the resolved request URL otherwise; with
no og:url meta and requested URL `https://a.com/` the record's og:url is
`https://a.com/`. -/
theorem og_url_resolved_fallback :
    (∀ (soup : Soup) (url : String),
      dictGet (extract_meta_tags soup url) "og:url" =
        if get_meta_by_property soup "og:url" = "" then url
        else get_meta_by_property soup "og:url") ∧
    dictGet (extract_meta_tags ⟨[], [], none⟩ "https://a.com/") "og:url" = "https://a.com/" := by
  refine ⟨fun soup url => ?_, by decide⟩
  simp only [extract_meta_tags]
  split_ifs <;> first
    | rfl
    | (rename_i ha hb; exact absurd ha hb)
    | (rename_i ha hb; exact absurd hb ha)

/-- Claim C6: for every parsed document and resolved URL the extracted
record has exactly the 13 fixed string keys, in the fixed order, each mapped
to a string; no key is ever missing. -/
theorem extract_record_keys_fixed :
    ∀ (soup : Soup) (url : String),
      (extract_meta_tags soup url).map Prod.fst =
        ["title", "description", "robots", "canonical", "og:title", "og:description",
         "og:image", "og:url", "og:type", "twitter:card", "twitter:title",
         "twitter:description", "twitter:image"] := by
  intro soup url
  simp only [extract_meta_tags]
  split <;> rfl

/-- Claim C7: `normalize_url` trims the input and prepends `https://` if and
only if the trimmed string begins with neither `http://` nor `https://`; it
is total; `normalize_url "example.com" = "https://example.com"` and
`normalize_url " http://x.com " = "http://x.com"`. -/
theorem normalize_url_trim_and_scheme :
    (∀ s : String,
      beginsWith (pyStrip s) "http://" = false →
      beginsWith (pyStrip s) "https://" = false →
      normalize_url s = "https://" ++ pyStrip s) ∧
    (∀ s : String,
      beginsWith (pyStrip s) "http://" = true ∨ beginsWith (pyStrip s) "https://" = true →
      normalize_url s = pyStrip s) ∧
    normalize_url "example.com" = "https://example.com" ∧
    normalize_url " http://x.com " = "http://x.com" := by
  refine ⟨fun s h1 h2 => ?_, fun s h => ?_, by decide, by decide⟩
  · simp [normalize_url, h1, h2]
  · rcases h with h | h <;> simp [normalize_url, h]

/-- Claim C7 witness: a host with no scheme gets `https://` prepended after
trimming. -/
theorem normalize_url_trim_and_scheme_witness :
    normalize_url "seo.example" = "https://" ++ pyStrip "seo.example" :=
  normalize_url_trim_and_scheme.1 "seo.example" rfl rfl

/-- Claim C8: URL normalization is idempotent. -/
theorem normalize_url_idempotent :
    ∀ u : String, normalize_url (normalize_url u) = normalize_url u := by
  intro u
  by_cases h : (!(beginsWith (pyStrip u) "http://") && !(beginsWith (pyStrip u) "https://")) = true
  · have h1 : normalize_url u = "https://" ++ pyStrip u := by
      simp only [normalize_url]
      rw [if_pos h]
    rw [h1]
    simp only [normalize_url]
    rw [pyStrip_https, beginsWith_https_append]
    simp
  · have h1 : normalize_url u = pyStrip u := by
      simp only [normalize_url]
      rw [if_neg h]
    rw [h1]
    simp only [normalize_url]
    rw [pyStrip_idem]
    rw [if_neg h]

/-- Claim C9: when the trimmed url field of the request body is empty (or
the field is missing), `analyze` returns the `No URL provided.` error with
client-error status 400 and the fetch trace is empty: the outbound fetch is
never invoked. -/
theorem empty_url_no_fetch :
    ∀ (fetch : String → Except String String) (parseHtml : String → Soup)
      (displayUrl : String → String) (urlField : Option String),
      pyStrip (urlField.getD "") = "" →
      analyze fetch parseHtml displayUrl urlField =
        (AnalyzeResponse.failure "No URL provided." 400, []) := by
  intro fetch parseHtml displayUrl urlField h
  simp only [analyze]
  rw [if_pos h]

/-- Claim C9 witness: a whitespace-only url field produces the error
response and an empty fetch trace, for a fetch that would fail if called. -/
theorem empty_url_no_fetch_witness :
    analyze (fun _ => Except.error "boom") (fun _ => ⟨[], [], none⟩) (fun s => s) (some " ")
      = (AnalyzeResponse.failure "No URL provided." 400, []) :=
  empty_url_no_fetch (fun _ => Except.error "boom") (fun _ => ⟨[], [], none⟩)
    (fun s => s) (some " ") rfl

/-- Claim C10: the feedback list always has between 6 and 8 items: the
title, description, canonical, Open Graph title/description, Open Graph
image and Twitter card checks each contribute exactly one item, the robots
check between 0 and 2; a non-empty robots value containing neither
`noindex` nor `nofollow` contributes no item at all. -/
theorem feedback_count_bounds :
    (∀ meta : List (String × String), (titleFeedback meta).length = 1) ∧
    (∀ meta : List (String × String), (descriptionFeedback meta).length = 1) ∧
    (∀ meta : List (String × String), (canonicalFeedback meta).length = 1) ∧
    (∀ meta : List (String × String), (ogFeedback meta).length = 1) ∧
    (∀ meta : List (String × String), (ogImageFeedback meta).length = 1) ∧
    (∀ meta : List (String × String), (twitterFeedback meta).length = 1) ∧
    (∀ meta : List (String × String), (robotsFeedback meta).length ≤ 2) ∧
    (∀ meta : List (String × String),
      6 ≤ (generate_feedback meta).length ∧ (generate_feedback meta).length ≤ 8) ∧
    (∀ meta : List (String × String),
      dictGet meta "robots" ≠ "" →
      pyContains (pyLower (dictGet meta "robots")) "noindex" = false →
      pyContains (pyLower (dictGet meta "robots")) "nofollow" = false →
      robotsFeedback meta = []) := by
  refine ⟨titleFeedback_length_one, descriptionFeedback_length_one,
    canonicalFeedback_length_one, ogFeedback_length_one, ogImageFeedback_length_one,
    twitterFeedback_length_one, robotsFeedback_length_le_two,
    fun meta => ?_, fun meta h1 h2 h3 => ?_⟩
  · have hr := robotsFeedback_length_le_two meta
    simp only [generate_feedback, List.length_append, titleFeedback_length_one,
      descriptionFeedback_length_one, canonicalFeedback_length_one, ogFeedback_length_one,
      ogImageFeedback_length_one, twitterFeedback_length_one]
    omega
  · have h4 : pyLower (dictGet meta "robots") ≠ "" :=
      fun he => h1 ((pyLower_eq_empty_iff _).mp he)
    simp only [robotsFeedback]
    rw [if_pos h4, h2, h3]
    decide

/-- Claim C10 witness: a robots value of `all` (non-empty, no directive
substrings) yields no robots feedback item. -/
theorem feedback_count_bounds_witness :
    robotsFeedback [("robots", "all")] = [] :=
  feedback_count_bounds.2.2.2.2.2.2.2.2 [("robots", "all")] (by decide) rfl rfl

end SEO
